import Mathlib

/-!
Verification of the two client programs of the vllm-cpu-example repository:
the Gradio chat UI (`chatbot.py`) and the diagnostic API test harness
(`test_vllm.py`). The Python code is embedded shallowly: the message-list
builders, the streaming accumulation loops, the SSE frame loop of the
streaming test, the performance batch, and the `main` control flow of the
diagnostic client become pure Lean functions over explicit inputs (the
outcomes of the HTTP requests, the process environment, the streamed
chunks).
-/

namespace VllmClients

/-- Message roles of the OpenAI-compatible chat API. -/
inductive Role where
  | system
  | user
  | assistant
deriving DecidableEq, Repr

/-- One conversation turn: a role-tagged content string, as the dicts
`{"role": ..., "content": ...}` built by `chatbot.py`. -/
structure Msg where
  role : Role
  content : String
deriving DecidableEq, Repr

/-! ## Configuration (chatbot.py lines 21-22)

`os.getenv(key, default)` over a process environment modelled as a partial
map from variable names to values. -/

/-- Embedding of Python `os.getenv(key, default)`. -/
def getenv (env : String → Option String) (key dflt : String) : String :=
  (env key).getD dflt

/-- `chatbot.py` line 21: `VLLM_BASE_URL = os.getenv("VLLM_BASE_URL", "http://localhost:8009/v1")`. -/
def vllmBaseUrl (env : String → Option String) : String :=
  getenv env "VLLM_BASE_URL" "http://localhost:8009/v1"

/-- `chatbot.py` line 22: `MODEL_NAME = os.getenv("MODEL_NAME", "HuggingFaceTB/SmolLM2-360M-Instruct")`. -/
def modelName (env : String → Option String) : String :=
  getenv env "MODEL_NAME" "HuggingFaceTB/SmolLM2-360M-Instruct"

/-- `test_vllm.py`: `main` (line 221) constructs `VLLMTester()` with the
default constructor argument `base_url = "http://localhost:8009"`
(line 27); the script reads no environment variables, so the base URL of
the diagnostic client is this constant for every process environment. -/
def testerBaseUrl (_env : String → Option String) : String :=
  "http://localhost:8009"

/-! ## Chat session builders (chatbot.py)

`chat` (lines 50-67) builds the message list from a system prompt, a
tuple-formatted history and the current message; `respond` (lines 197-207)
does the same from a dict-formatted history. Python truthiness of a string
is non-emptiness. -/

/-- Embedding of Python `str.strip()`: drop whitespace characters from
both ends of the string. -/
def pyStrip (s : String) : String :=
  String.mk (((s.data.dropWhile Char.isWhitespace).reverse.dropWhile
    Char.isWhitespace).reverse)

/-- `chatbot.py` lines 53-57 and 199-200: append a system turn iff
`system_prompt and system_prompt.strip()` is truthy; the content appended
is the prompt itself, not its stripped form. -/
def sysMsgs (system_prompt : String) : List Msg :=
  if system_prompt ≠ "" ∧ pyStrip system_prompt ≠ "" then
    [⟨Role.system, system_prompt⟩]
  else []

/-- `chatbot.py` lines 60-64: one `(user_msg, bot_msg)` history tuple
contributes a user turn if `user_msg` is truthy and an assistant turn if
`bot_msg` is truthy. -/
def pairMsgs (p : String × String) : List Msg :=
  (if p.1 ≠ "" then [⟨Role.user, p.1⟩] else []) ++
  (if p.2 ≠ "" then [⟨Role.assistant, p.2⟩] else [])

/-- `chatbot.py` lines 50-67: the message list assembled by `chat`. -/
def chatMessages (message : String) (history : List (String × String))
    (system_prompt : String) : List Msg :=
  sysMsgs system_prompt ++ history.flatMap pairMsgs ++ [⟨Role.user, message⟩]

/-- `chatbot.py` lines 197-207: the message list assembled by `respond`
(`messages.extend(history)` on a possibly-empty dict history). -/
def respondMessages (message : String) (history : List Msg)
    (sys_prompt : String) : List Msg :=
  sysMsgs sys_prompt ++ history ++ [⟨Role.user, message⟩]

/-! ## Streaming accumulation (chatbot.py lines 80-84 and 221-227)

A streamed chunk carries `chunk.choices[0].delta.content`, an optional
string; `if chunk.choices[0].delta.content:` is truthy iff it is a
non-empty string. The loop keeps an accumulator `response` and yields the
updated accumulator after each appended fragment. -/

/-- The text a chunk contributes: its `delta.content` when present, else
nothing. -/
def chunkText (c : Option String) : String := c.getD ""

/-- Concatenation of a fragment sequence in arrival order,
`f1 ++ f2 ++ ... ++ fn`. -/
def concatAll (l : List String) : String := l.foldr (· ++ ·) ""

/-- `chatbot.py` lines 81-84: the streaming loop, returning the final
accumulator together with the list of yielded intermediate values. -/
def chatStream : List (Option String) → String → String × List String
  | [], acc => (acc, [])
  | c :: cs, acc =>
    match c with
    | some s =>
      if s ≠ "" then
        let r := chatStream cs (acc ++ s)
        (r.1, (acc ++ s) :: r.2)
      else chatStream cs acc
    | none => chatStream cs acc

/-! ## Error handling of the chat UI (chatbot.py lines 86-88 and 229-235) -/

/-- `chatbot.py` line 87: the f-string yielded by `chat` on an exception. -/
def chatErrorMsg (env : String → Option String) (e : String) : String :=
  "Error: " ++ e ++ "\n\nMake sure vLLM is running at " ++ vllmBaseUrl env

/-- `chatbot.py` line 233: the f-string used by `respond` on an exception. -/
def respondErrorMsg (env : String → Option String) (e : String) : String :=
  "Connection Error: " ++ e ++
    "\n\nPlease check:\n1. vLLM is running: docker compose ps\n2. API endpoint: " ++
    vllmBaseUrl env

/-- Outcome of the `try` block around the streaming request: either the
whole chunk sequence arrives, or an exception with message `e` is raised
after the chunks consumed so far. -/
inductive StreamOutcome where
  | ok (chunks : List (Option String))
  | errorAfter (chunks : List (Option String)) (e : String)
deriving DecidableEq, Repr

/-- `chatbot.py` lines 69-88: everything the generator `chat` yields.
On an exception the `except` clause yields the single error message and
the generator ends; nothing is raised to the caller. -/
def chatYields (env : String → Option String) : StreamOutcome → List String
  | .ok cs => (chatStream cs "").2
  | .errorAfter cs e => (chatStream cs "").2 ++ [chatErrorMsg env e]

/-- `chatbot.py` lines 209-235: everything the generator `respond` yields:
each intermediate accumulator as a history extended with an assistant
turn, and on an exception one final synthesized assistant error turn. -/
def respondYields (env : String → Option String) (message : String)
    (history : List Msg) : StreamOutcome → List (List Msg)
  | .ok cs =>
      ((chatStream cs "").2).map
        (fun r => (history ++ [⟨Role.user, message⟩]) ++ [⟨Role.assistant, r⟩])
  | .errorAfter cs e =>
      ((chatStream cs "").2).map
        (fun r => (history ++ [⟨Role.user, message⟩]) ++ [⟨Role.assistant, r⟩]) ++
      [(history ++ [⟨Role.user, message⟩]) ++
        [⟨Role.assistant, respondErrorMsg env e⟩]]

/-! ## Diagnostic client (test_vllm.py)

Each HTTP request's outcome is an explicit input: either a response with a
status code (and, where relevant, a decoded body) or a raised request
exception. -/

/-- Outcome of one `requests` call: an HTTP response with a status code,
or a raised exception carrying its message. -/
inductive ReqOutcome where
  | resp (status : Nat)
  | exn (e : String)
deriving DecidableEq, Repr

/-- `test_vllm.py` lines 32-44, `VLLMTester.check_health`: `True` iff the
GET of `/health` returned status 200; non-200 statuses and request
exceptions yield `False`. -/
def check_health (r : ReqOutcome) : Bool :=
  match r with
  | .resp s => s == 200
  | .exn _ => false

/-- The claim's notion of a failed health probe: a non-200 status or a
request exception. -/
def healthFails : ReqOutcome → Bool
  | .resp s => s != 200
  | .exn _ => true

/-! ### Streaming test (test_vllm.py lines 124-167)

`test_streaming` iterates the response lines. Empty lines are skipped;
lines not starting with `"data: "` are ignored; the payload `"[DONE]"`
breaks the loop; other payloads go through `json.loads` and
`data["choices"][0]["text"]`. Only `json.JSONDecodeError` is caught (and
skipped with `continue`); a payload that parses as JSON but lacks the
`choices[0].text` field raises an uncaught KeyError/IndexError/TypeError,
which the method-level `except Exception` turns into a failed test. The
parse-and-extract outcome of one data payload is embedded as: -/

/-- Parse outcome of one `data: ` payload (other than the sentinel):
`decodeError` when `json.loads` raises, `badShape` when the JSON parses
but `["choices"][0]["text"]` raises, `text s` when extraction succeeds. -/
inductive Payload where
  | decodeError
  | badShape
  | text (s : String)
deriving DecidableEq, Repr

/-- One line delivered by `response.iter_lines()` in the streaming test. -/
inductive SSELine where
  | empty
  | other (s : String)
  | dataDone
  | dataFrame (p : Payload)
deriving DecidableEq, Repr

/-- `test_vllm.py` lines 146-160: the accumulation loop of
`test_streaming`. Returns `some full_text` when the loop finishes (by the
`[DONE]` break or by stream end) and `none` when an uncaught exception
escapes to the method-level handler and the test fails. -/
def streamLoop : List SSELine → String → Option String
  | [], acc => some acc
  | SSELine.empty :: ls, acc => streamLoop ls acc
  | SSELine.other _ :: ls, acc => streamLoop ls acc
  | SSELine.dataDone :: _, acc => some acc
  | SSELine.dataFrame Payload.decodeError :: ls, acc => streamLoop ls acc
  | SSELine.dataFrame Payload.badShape :: _, _ => none
  | SSELine.dataFrame (Payload.text s) :: ls, acc => streamLoop ls (acc ++ s)

/-- The text fields of the frames the loop would accumulate before the
first `[DONE]` sentinel (frames after the sentinel are never read). -/
def frameTexts : List SSELine → List String
  | [] => []
  | SSELine.empty :: ls => frameTexts ls
  | SSELine.other _ :: ls => frameTexts ls
  | SSELine.dataDone :: _ => []
  | SSELine.dataFrame Payload.decodeError :: ls => frameTexts ls
  | SSELine.dataFrame Payload.badShape :: ls => frameTexts ls
  | SSELine.dataFrame (Payload.text s) :: ls => s :: frameTexts ls

/-- No frame before the first `[DONE]` sentinel parses as JSON while
lacking the `choices[0].text` field. -/
def noBadShapeBeforeDone : List SSELine → Bool
  | [] => true
  | SSELine.empty :: ls => noBadShapeBeforeDone ls
  | SSELine.other _ :: ls => noBadShapeBeforeDone ls
  | SSELine.dataDone :: _ => true
  | SSELine.dataFrame Payload.decodeError :: ls => noBadShapeBeforeDone ls
  | SSELine.dataFrame Payload.badShape :: _ => false
  | SSELine.dataFrame (Payload.text _) :: ls => noBadShapeBeforeDone ls

/-! ### Performance batch (test_vllm.py lines 169-211) -/

/-- Outcome of one timed completion request of the performance batch: a
response with a status code and the elapsed wall time, or an exception
(in which case no time is recorded). Elapsed times are modelled as
rationals. -/
inductive PerfOutcome where
  | resp (status : Nat) (elapsed : ℚ)
  | exn (e : String)
deriving DecidableEq, Repr

/-- A performance request that failed: non-200 status or exception. -/
def perfFailed : PerfOutcome → Bool
  | .resp s _ => s != 200
  | .exn _ => true

/-- `test_vllm.py` lines 180-202: the `times` list after the request loop;
`times.append(elapsed)` runs only on status 200. -/
def perfTimes (os : List PerfOutcome) : List ℚ :=
  os.filterMap fun o =>
    match o with
    | .resp s t => if s = 200 then some t else none
    | .exn _ => none

/-- The average/min/max summary printed at the end of `test_performance`. -/
structure PerfSummary where
  avg : ℚ
  minT : ℚ
  maxT : ℚ
deriving DecidableEq, Repr

/-- `test_vllm.py` lines 204-211: the summary is computed only under
`if times:`; `test_performance` returns `None` in Python, so its
observable result is the optional summary. -/
def test_performance (os : List PerfOutcome) : Option PerfSummary :=
  match perfTimes os with
  | [] => none
  | t :: ts =>
      some ⟨(t :: ts).sum / ((t :: ts).length : ℚ),
            ts.foldl min t, ts.foldl max t⟩

/-! ### main (test_vllm.py lines 214-280) -/

/-- The externally determined outcomes `main` runs against: the health
probe outcome, the model-listing result (`none` for a failed request or a
non-200 status, `some ids` for the decoded `data` list), the pass/fail
results of the three counted tests, and the performance batch outcomes. -/
structure Env where
  health : ReqOutcome
  modelsResult : Option (List String)
  completionOk : Bool
  chatOk : Bool
  streamingOk : Bool
  perfOutcomes : List PerfOutcome
deriving DecidableEq, Repr

/-- The operations `main` can invoke, in program order. -/
inductive Op where
  | opHealth
  | opListModels
  | opCompletion
  | opChatCompletion
  | opStreaming
  | opPerformance
deriving DecidableEq, Repr

/-- `test_vllm.py` lines 214-280: the control flow of `main`. Returns the
process exit code and the trace of operations invoked, in order. A failed
health check exits 1 before `list_models`; a `None` or empty model list
exits 1 before the tests; otherwise the three counted tests and the
performance batch all run, and the exit code is 0 iff all three counted
tests passed. -/
def mainRun (env : Env) : Nat × List Op :=
  if ¬ check_health env.health then
    (1, [Op.opHealth])
  else
    match env.modelsResult with
    | none => (1, [Op.opHealth, Op.opListModels])
    | some models =>
      if models.length = 0 then
        (1, [Op.opHealth, Op.opListModels])
      else
        let successCount :=
          (if env.completionOk then 1 else 0) +
          (if env.chatOk then 1 else 0) +
          (if env.streamingOk then 1 else 0)
        ((if successCount = 3 then 0 else 1),
         [Op.opHealth, Op.opListModels, Op.opCompletion,
          Op.opChatCompletion, Op.opStreaming, Op.opPerformance])

/-! ## Helper lemmas -/

/-- The final accumulator of the streaming loop is the starting
accumulator followed by the concatenation of the chunk texts. -/
theorem chatStream_fst (cs : List (Option String)) (acc : String) :
    (chatStream cs acc).1 = acc ++ concatAll (cs.map chunkText) := by
  induction cs generalizing acc with
  | nil => simp [chatStream, concatAll]
  | cons c cs ih =>
    cases c with
    | none => simp [chatStream, chunkText, concatAll, ih acc]
    | some s =>
      by_cases h : s = ""
      · subst h
        simp [chatStream, chunkText, concatAll, ih acc]
      · simp [chatStream, h, chunkText, concatAll, ih (acc ++ s),
          String.append_assoc]

/-- Each value yielded by the streaming loop extends the previous one:
the yields form a chain under the relation "is extended by". -/
theorem chatStream_chain (cs : List (Option String)) (acc : String) :
    List.Chain (fun a b => ∃ t, b = a ++ t) acc (chatStream cs acc).2 := by
  induction cs generalizing acc with
  | nil => exact List.Chain.nil
  | cons c cs ih =>
    cases c with
    | none => simpa [chatStream] using ih acc
    | some s =>
      by_cases h : s = ""
      · subst h
        simpa [chatStream] using ih acc
      · simp only [chatStream, h, ne_eq, not_false_eq_true, if_true]
        exact List.Chain.cons ⟨s, rfl⟩ (ih (acc ++ s))

/-- The last yielded value, or the starting accumulator when nothing was
yielded, is the final accumulator. -/
theorem chatStream_last (cs : List (Option String)) (acc : String) :
    ((chatStream cs acc).2.getLast?).getD acc = (chatStream cs acc).1 := by
  induction cs generalizing acc with
  | nil => rfl
  | cons c cs ih =>
    cases c with
    | none => simpa [chatStream] using ih acc
    | some s =>
      by_cases h : s = ""
      · subst h
        simpa [chatStream] using ih acc
      · simp only [chatStream, h, ne_eq, not_false_eq_true, if_true]
        cases hy : (chatStream cs (acc ++ s)).2 with
        | nil =>
            have := ih (acc ++ s)
            rw [hy] at this
            simpa using this
        | cons y l =>
            have := ih (acc ++ s)
            rw [hy] at this
            simpa [List.getLast?_cons_cons, hy] using this

/-! ## Claims -/

/-- C1: for every sequence of streamed fragments (including the empty
sequence), the text displayed by the chat client after processing all
fragments equals their concatenation in arrival order, and the
intermediate displayed values form a chain in which each extends the
previous (monotonic accumulation, starting from the empty display). -/
theorem chat_streaming_monotonic (cs : List (Option String)) :
    (((chatStream cs "").2.getLast?).getD "" = concatAll (cs.map chunkText)) ∧
    List.Chain (fun a b => ∃ t, b = a ++ t) "" (chatStream cs "").2 := by
  refine ⟨?_, chatStream_chain cs ""⟩
  rw [chatStream_last cs ""]
  simpa using chatStream_fst cs ""

/-- Every message produced from a history tuple has role user or
assistant; the history loop never emits a system turn. -/
theorem pairMsgs_role (p : String × String) (x : Msg) (hx : x ∈ pairMsgs p) :
    x.role = Role.user ∨ x.role = Role.assistant := by
  unfold pairMsgs at hx
  rcases List.mem_append.1 hx with h | h <;> split at h <;>
    simp_all [Msg.role]

/-- A string with a non-empty strip is non-empty. -/
theorem ne_empty_of_pyStrip_ne_empty (s : String) (h : pyStrip s ≠ "") :
    s ≠ "" := by
  intro hs
  subst hs
  exact h rfl

/-- C2 counterexample: for the non-empty system prompt `" sp "`, the first
entry of the assembled message list has as content the prompt itself,
which differs from the prompt with surrounding whitespace trimmed, so the
claim that the content equals the trimmed prompt is false at this input. -/
theorem system_prompt_not_trimmed :
    (chatMessages "hi" [] " sp ").head? = some ⟨Role.system, " sp "⟩ ∧
    (respondMessages "hi" [] " sp ").head? = some ⟨Role.system, " sp "⟩ ∧
    pyStrip " sp " ≠ " sp " := by
  refine ⟨?_, ?_, ?_⟩ <;> decide

/-- C2 amended: for a system prompt that is non-empty after trimming, the
assembled message list of both builders starts with a system turn whose
content is the prompt as given (not trimmed); for an empty or
whitespace-only prompt, `chat` assembles no system turn and `respond`
assembles exactly the prior history followed by the user turn. -/
theorem system_prompt_handling (sp m : String) (hist : List (String × String))
    (histR : List Msg) :
    (pyStrip sp ≠ "" →
      (chatMessages m hist sp).head? = some ⟨Role.system, sp⟩ ∧
      (respondMessages m histR sp).head? = some ⟨Role.system, sp⟩) ∧
    (pyStrip sp = "" →
      (∀ x ∈ chatMessages m hist sp, x.role ≠ Role.system) ∧
      respondMessages m histR sp = histR ++ [⟨Role.user, m⟩]) := by
  constructor
  · intro h
    have hcond : sp ≠ "" ∧ pyStrip sp ≠ "" :=
      ⟨ne_empty_of_pyStrip_ne_empty sp h, h⟩
    constructor <;> simp [chatMessages, respondMessages, sysMsgs, hcond]
  · intro h
    have hcond : ¬ (sp ≠ "" ∧ pyStrip sp ≠ "") := by
      rintro ⟨-, h2⟩
      exact h2 h
    constructor
    · intro x hx
      have hsys : sysMsgs sp = [] := by simp [sysMsgs, hcond]
      rw [chatMessages, hsys, List.nil_append] at hx
      rcases List.mem_append.1 hx with h1 | h1
      · obtain ⟨p, -, hp⟩ := List.mem_flatMap.1 h1
        rcases pairMsgs_role p x hp with h2 | h2 <;> simp [h2]
      · simp only [List.mem_singleton] at h1
        simp [h1]
    · simp [respondMessages, sysMsgs, hcond]

/-- C2 witness: instantiating the amended claim at the concrete prompt
`" a "`, whose strip is non-empty. -/
theorem system_prompt_handling_witness :
    (chatMessages "m" [] " a ").head? = some ⟨Role.system, " a "⟩ :=
  ((system_prompt_handling " a " "m" [] []).1 (by decide)).1

/-- C6: both message-list builders keep the prior turns in their original
relative order (as a sublist of the result), and append exactly one new
user entry, carrying the new message, as the last element; for `respond`
the result is exactly the optional system turn, the prior history, and
the new user turn. -/
theorem prior_turns_preserved (m sp : String) (hist : List (String × String))
    (histR : List Msg) :
    (chatMessages m hist sp).getLast? = some ⟨Role.user, m⟩ ∧
    (hist.flatMap pairMsgs).Sublist (chatMessages m hist sp) ∧
    (chatMessages m hist sp).length =
      (sysMsgs sp).length + (hist.flatMap pairMsgs).length + 1 ∧
    respondMessages m histR sp = (sysMsgs sp ++ histR) ++ [⟨Role.user, m⟩] ∧
    (respondMessages m histR sp).getLast? = some ⟨Role.user, m⟩ ∧
    histR.Sublist (respondMessages m histR sp) := by
  refine ⟨?_, ?_, ?_, ?_, ?_, ?_⟩
  · simp [chatMessages]
  · rw [chatMessages, List.append_assoc]
    exact ((List.sublist_append_left _ _).trans
      (List.sublist_append_right _ _))
  · simp [chatMessages]
    omega
  · simp [respondMessages]
  · simp [respondMessages]
  · have h : histR.Sublist (sysMsgs sp ++ (histR ++ [⟨Role.user, m⟩])) :=
      (List.sublist_append_left histR [⟨Role.user, m⟩]).trans
        (List.sublist_append_right (sysMsgs sp) _)
    simp only [respondMessages, List.append_assoc]
    exact h

/-- A failing health probe makes `check_health` return false. -/
theorem check_health_eq_false (r : ReqOutcome) (h : healthFails r = true) :
    check_health r = false := by
  cases r with
  | resp s =>
      simp only [healthFails, bne_iff_ne, ne_eq] at h
      simp [check_health, h]
  | exn e => rfl

/-- C3: whenever the health check fails (non-200 status or request
exception), `main` exits with code 1 and never invokes the model-listing
operation. -/
theorem health_failure_fatal (env : Env) (h : healthFails env.health = true) :
    check_health env.health = false ∧
    (mainRun env).1 = 1 ∧
    Op.opListModels ∉ (mainRun env).2 := by
  have hch : check_health env.health = false := check_health_eq_false _ h
  refine ⟨hch, ?_, ?_⟩ <;> simp [mainRun, hch]

/-- C3 witness: a concrete run whose health probe returns status 503. -/
theorem health_failure_fatal_witness :
    check_health (Env.mk (ReqOutcome.resp 503) (some ["m"]) true true true
      []).health = false ∧
    (mainRun (Env.mk (ReqOutcome.resp 503) (some ["m"]) true true true
      [])).1 = 1 ∧
    Op.opListModels ∉ (mainRun (Env.mk (ReqOutcome.resp 503) (some ["m"])
      true true true [])).2 :=
  health_failure_fatal
    (Env.mk (ReqOutcome.resp 503) (some ["m"]) true true true []) (by decide)

/-- C5: the diagnostic client exits 0 iff the health probe passed, the
model listing returned a non-empty list, and the completion, chat and
streaming tests all passed; otherwise it exits 1; and once health and
listing succeed, the three independent tests are all invoked, in order,
regardless of each other's outcomes. -/
theorem exit_code_iff_all_passed (env : Env) :
    ((mainRun env).1 = 0 ↔
      (check_health env.health = true ∧
       (∃ ms, env.modelsResult = some ms ∧ ms ≠ []) ∧
       env.completionOk = true ∧ env.chatOk = true ∧
       env.streamingOk = true)) ∧
    ((mainRun env).1 = 0 ∨ (mainRun env).1 = 1) ∧
    (check_health env.health = true →
      ∀ ms, env.modelsResult = some ms → ms ≠ [] →
        [Op.opCompletion, Op.opChatCompletion,
          Op.opStreaming].Sublist (mainRun env).2) := by
  obtain ⟨hr, mr, c1, c2, c3, p⟩ := env
  by_cases hh : check_health hr = true
  · cases mr with
    | none => simp [mainRun, hh]
    | some ms =>
      cases ms with
      | nil => simp [mainRun, hh]
      | cons a as =>
        cases c1 <;> cases c2 <;> cases c3 <;>
          simp [mainRun, hh]
  · have hh2 : check_health hr = false := by
      cases hcc : check_health hr
      · rfl
      · exact absurd hcc hh
    simp [mainRun, hh2]

/-- C5 witness: a concrete healthy run with one listed model and all three
tests passing exits 0 and invokes the three independent tests. -/
theorem exit_code_iff_all_passed_witness :
    (mainRun (Env.mk (ReqOutcome.resp 200) (some ["m"]) true true true
      [])).1 = 0 ∧
    [Op.opCompletion, Op.opChatCompletion, Op.opStreaming].Sublist
      (mainRun (Env.mk (ReqOutcome.resp 200) (some ["m"]) true true true
        [])).2 :=
  ⟨(exit_code_iff_all_passed
      (Env.mk (ReqOutcome.resp 200) (some ["m"]) true true true [])).1.2
    ⟨by decide, ⟨["m"], rfl, by decide⟩, rfl, rfl, rfl⟩,
   (exit_code_iff_all_passed
      (Env.mk (ReqOutcome.resp 200) (some ["m"]) true true true [])).2.2
    (by decide) ["m"] rfl (by decide)⟩

/-- A frame sequence containing a frame whose payload parses as JSON but
lacks the `choices[0].text` field, between two well-formed frames. -/
def badShapeLines : List SSELine :=
  [SSELine.dataFrame (Payload.text "a"),
   SSELine.dataFrame Payload.badShape,
   SSELine.dataFrame (Payload.text "b"),
   SSELine.dataDone]

/-- C4 counterexample: on `badShapeLines` the claim demands that the final
accumulated text be the concatenation `"ab"` of the text fields of the
well-formed (JSON-parsing) frames before `[DONE]`; the loop instead
raises an uncaught KeyError on the parsing-but-textless frame, the
method-level handler fails the whole streaming test, and no accumulated
text is produced. -/
theorem streaming_badshape_aborts :
    streamLoop badShapeLines "" = none ∧
    concatAll (frameTexts badShapeLines) = "ab" ∧
    streamLoop badShapeLines "" ≠ some (concatAll (frameTexts badShapeLines)) := by
  refine ⟨rfl, by decide, ?_⟩
  intro h
  exact Option.noConfusion h

/-- The streaming loop, started from any accumulator, accumulates exactly
the text fields before the first sentinel, provided no frame before the
sentinel parses while lacking the text field. -/
theorem streamLoop_eq (ls : List SSELine) (acc : String)
    (h : noBadShapeBeforeDone ls = true) :
    streamLoop ls acc = some (acc ++ concatAll (frameTexts ls)) := by
  induction ls generalizing acc with
  | nil => simp [streamLoop, frameTexts, concatAll]
  | cons l ls ih =>
    cases l with
    | empty =>
        rw [noBadShapeBeforeDone] at h
        simp [streamLoop, frameTexts, ih acc h]
    | other s =>
        rw [noBadShapeBeforeDone] at h
        simp [streamLoop, frameTexts, ih acc h]
    | dataDone => simp [streamLoop, frameTexts, concatAll]
    | dataFrame p =>
      cases p with
      | decodeError =>
          rw [noBadShapeBeforeDone] at h
          simp [streamLoop, frameTexts, ih acc h]
      | badShape =>
          rw [noBadShapeBeforeDone] at h
          exact absurd h (by decide)
      | text s =>
          rw [noBadShapeBeforeDone] at h
          simp [streamLoop, frameTexts, concatAll, ih (acc ++ s) h,
            String.append_assoc]

/-- C4 amended: frames whose data payload fails to parse as JSON are
skipped without terminating the stream, and — provided every frame before
the `[DONE]` sentinel that does parse carries the `choices[0].text`
field — the final accumulated text equals the concatenation of those text
fields in order; a parsing frame without the field instead aborts the
streaming test with an uncaught exception, failing it. -/
theorem streaming_skips_malformed (ls : List SSELine)
    (h : noBadShapeBeforeDone ls = true) :
    streamLoop ls "" = some (concatAll (frameTexts ls)) := by
  have := streamLoop_eq ls "" h
  simpa using this

/-- C4 witness: a concrete stream with a keepalive line, a non-data line
and a malformed (non-parsing) frame interleaved among the frames
`"Hel"`, `"lo"` and the sentinel accumulates exactly `"Hello"`. -/
theorem streaming_skips_malformed_witness :
    streamLoop
      [SSELine.dataFrame (Payload.text "Hel"), SSELine.empty,
       SSELine.other "x", SSELine.dataFrame Payload.decodeError,
       SSELine.dataFrame (Payload.text "lo"), SSELine.dataDone,
       SSELine.dataFrame Payload.badShape] "" =
    some (concatAll (frameTexts
      [SSELine.dataFrame (Payload.text "Hel"), SSELine.empty,
       SSELine.other "x", SSELine.dataFrame Payload.decodeError,
       SSELine.dataFrame (Payload.text "lo"), SSELine.dataDone,
       SSELine.dataFrame Payload.badShape])) :=
  streaming_skips_malformed
    [SSELine.dataFrame (Payload.text "Hel"), SSELine.empty,
     SSELine.other "x", SSELine.dataFrame Payload.decodeError,
     SSELine.dataFrame (Payload.text "lo"), SSELine.dataDone,
     SSELine.dataFrame Payload.badShape] (by decide)

/-- Splitting a middle string literal inside a left-associated append. -/
theorem append_split3 (a b c d g u : String) (h : b = (c ++ d) ++ g) :
    (a ++ b) ++ u = (a ++ c) ++ (d ++ (g ++ u)) := by
  subst h
  simp [String.append_assoc]

/-- C7: for any exception raised by the streaming request or the fragment
iteration, after the normally yielded values the handlers of both `chat`
and `respond` yield exactly one more value — the synthesized error turn —
which contains the configured base URL and the remediation hint, and the
generator ends there instead of propagating the exception. -/
theorem stream_error_single_turn (env : String → Option String) (e m : String)
    (cs : List (Option String)) (hist : List Msg) :
    chatYields env (StreamOutcome.errorAfter cs e) =
      chatYields env (StreamOutcome.ok cs) ++ [chatErrorMsg env e] ∧
    (∃ p q, chatErrorMsg env e = p ++ (vllmBaseUrl env ++ q)) ∧
    (∃ p q, chatErrorMsg env e = p ++ ("Make sure vLLM is running" ++ q)) ∧
    respondYields env m hist (StreamOutcome.errorAfter cs e) =
      respondYields env m hist (StreamOutcome.ok cs) ++
        [(hist ++ [⟨Role.user, m⟩]) ++
          [⟨Role.assistant, respondErrorMsg env e⟩]] ∧
    (∃ p q, respondErrorMsg env e = p ++ (vllmBaseUrl env ++ q)) ∧
    (∃ p q, respondErrorMsg env e = p ++ ("Please check" ++ q)) := by
  refine ⟨rfl, ?_, ?_, rfl, ?_, ?_⟩
  · refine ⟨("Error: " ++ e) ++ "\n\nMake sure vLLM is running at ", "", ?_⟩
    simp [chatErrorMsg]
  · refine ⟨("Error: " ++ e) ++ "\n\n", " at " ++ vllmBaseUrl env, ?_⟩
    unfold chatErrorMsg
    exact append_split3 ("Error: " ++ e) "\n\nMake sure vLLM is running at "
      "\n\n" "Make sure vLLM is running" " at " (vllmBaseUrl env) (by decide)
  · refine ⟨("Connection Error: " ++ e) ++
      "\n\nPlease check:\n1. vLLM is running: docker compose ps\n2. API endpoint: ",
      "", ?_⟩
    simp [respondErrorMsg]
  · refine ⟨("Connection Error: " ++ e) ++ "\n\n",
      ":\n1. vLLM is running: docker compose ps\n2. API endpoint: " ++
        vllmBaseUrl env, ?_⟩
    unfold respondErrorMsg
    exact append_split3 ("Connection Error: " ++ e)
      "\n\nPlease check:\n1. vLLM is running: docker compose ps\n2. API endpoint: "
      "\n\n" "Please check"
      ":\n1. vLLM is running: docker compose ps\n2. API endpoint: "
      (vllmBaseUrl env) (by decide)

/-- `perfTimes` distributes over list append. -/
theorem perfTimes_append (xs ys : List PerfOutcome) :
    perfTimes (xs ++ ys) = perfTimes xs ++ perfTimes ys := by
  simp [perfTimes, List.filterMap_append]

/-- A failed performance request records no elapsed time. -/
theorem perfTimes_failed (f : PerfOutcome) (hf : perfFailed f = true) :
    perfTimes [f] = [] := by
  cases f with
  | resp s t =>
      simp only [perfFailed, bne_iff_ne, ne_eq] at hf
      simp [perfTimes, hf]
  | exn e => rfl

/-- C8: a failed request (non-200 status or exception) anywhere in the
performance batch is excluded from the average/min/max summary — removing
it from the outcome sequence leaves the summary unchanged — and the
performance batch has no effect on the exit code of `main`. -/
theorem perf_failures_excluded (xs ys : List PerfOutcome) (f : PerfOutcome)
    (hf : perfFailed f = true) (env : Env) (p q : List PerfOutcome) :
    test_performance (xs ++ f :: ys) = test_performance (xs ++ ys) ∧
    (mainRun { env with perfOutcomes := p }).1 =
      (mainRun { env with perfOutcomes := q }).1 := by
  constructor
  · have h1 : perfTimes (xs ++ f :: ys) = perfTimes (xs ++ ys) := by
      rw [show f :: ys = [f] ++ ys from rfl, perfTimes_append,
        perfTimes_append, perfTimes_failed f hf, perfTimes_append,
        List.nil_append]
    unfold test_performance
    rw [h1]
  · obtain ⟨hr, mr, c1, c2, c3, po⟩ := env
    rfl

/-- C8 witness: removing a concrete failed request leaves the summary
unchanged, and two runs differing only in their performance outcomes have
the same exit code. -/
theorem perf_failures_excluded_witness :
    test_performance ([PerfOutcome.resp 200 2] ++ PerfOutcome.exn "t" :: []) =
      test_performance ([PerfOutcome.resp 200 2] ++ []) ∧
    (mainRun { Env.mk (ReqOutcome.resp 200) (some ["m"]) true true true []
        with perfOutcomes := [] }).1 =
      (mainRun { Env.mk (ReqOutcome.resp 200) (some ["m"]) true true true []
        with perfOutcomes := [PerfOutcome.exn "x"] }).1 :=
  perf_failures_excluded [PerfOutcome.resp 200 2] [] (PerfOutcome.exn "t")
    (by decide)
    (Env.mk (ReqOutcome.resp 200) (some ["m"]) true true true [])
    [] [PerfOutcome.exn "x"]

/-- A process environment that sets both configuration variables. -/
def envOverride : String → Option String :=
  fun k =>
    if k = "VLLM_BASE_URL" then some "http://example.com:9000/v1"
    else if k = "MODEL_NAME" then some "other-model"
    else none

/-- C9 counterexample: in an environment that sets `VLLM_BASE_URL`, the
diagnostic client's base URL is still the built-in constant — the
environment variable does not override it, so the base URL of the
diagnostic client is not configurable via environment variables. -/
theorem tester_ignores_env :
    envOverride "VLLM_BASE_URL" = some "http://example.com:9000/v1" ∧
    testerBaseUrl envOverride = "http://localhost:8009" ∧
    testerBaseUrl envOverride ≠ "http://example.com:9000/v1" := by
  refine ⟨by decide, rfl, by decide⟩

/-- C9 amended: the chat UI client's base URL and model identifier are
configurable via the `VLLM_BASE_URL` and `MODEL_NAME` environment
variables, with the documented defaults when unset; the diagnostic
client's base URL is the fixed constant `http://localhost:8009` for every
process environment (its model identifier comes from the server's model
listing, not from configuration). -/
theorem config_via_env (env : String → Option String) (u m : String)
    (hu : env "VLLM_BASE_URL" = some u) (hm : env "MODEL_NAME" = some m) :
    vllmBaseUrl env = u ∧ modelName env = m ∧
    vllmBaseUrl (fun _ => none) = "http://localhost:8009/v1" ∧
    modelName (fun _ => none) = "HuggingFaceTB/SmolLM2-360M-Instruct" ∧
    testerBaseUrl env = "http://localhost:8009" := by
  refine ⟨?_, ?_, rfl, rfl, rfl⟩ <;>
    simp [vllmBaseUrl, modelName, getenv, hu, hm]

/-- C9 witness: the concrete overriding environment configures the chat
UI's base URL while the diagnostic client's stays fixed. -/
theorem config_via_env_witness :
    vllmBaseUrl envOverride = "http://example.com:9000/v1" ∧
    testerBaseUrl envOverride = "http://localhost:8009" :=
  ⟨(config_via_env envOverride "http://example.com:9000/v1" "other-model"
      (by decide) (by decide)).1,
   (config_via_env envOverride "http://example.com:9000/v1" "other-model"
      (by decide) (by decide)).2.2.2.2⟩

/-- When every performance request fails, no elapsed time is recorded. -/
theorem perfTimes_all_failed (os : List PerfOutcome)
    (h : ∀ o ∈ os, perfFailed o = true) : perfTimes os = [] := by
  induction os with
  | nil => rfl
  | cons o os ih =>
      rw [show o :: os = [o] ++ os from rfl, perfTimes_append,
        perfTimes_failed o (h o (by simp)),
        ih (fun x hx => h x (by simp [hx]))]
      rfl

/-- C10: if every request of the performance batch fails, the recorded
times list is empty and the average/min/max summary — whose average
divides by the number of recorded times — is never computed: the step
returns with no summary. -/
theorem perf_all_failed_no_summary (os : List PerfOutcome)
    (h : ∀ o ∈ os, perfFailed o = true) :
    perfTimes os = [] ∧ test_performance os = none := by
  have ht : perfTimes os = [] := perfTimes_all_failed os h
  refine ⟨ht, ?_⟩
  unfold test_performance
  rw [ht]

/-- C10 witness: a concrete batch of one exception and one 500 response
records no times and produces no summary. -/
theorem perf_all_failed_no_summary_witness :
    perfTimes [PerfOutcome.exn "a", PerfOutcome.resp 500 1] = [] ∧
    test_performance [PerfOutcome.exn "a", PerfOutcome.resp 500 1] = none :=
  perf_all_failed_no_summary [PerfOutcome.exn "a", PerfOutcome.resp 500 1]
    (by decide)

end VllmClients
